import Mathlib

/-!
# Verification of the sqlite-cloud-backup sync core

A shallow embedding of the synchronization core of `sqlite-cloud-backup`
(`src/core/sync-engine.ts`, `src/core/db-manager.ts`, `src/utils/checksum.ts`,
`src/types.ts`, and the `GoogleDriveProvider` storage transport of
`src/providers/google-drive`), together with proofs of the specified
properties.

Byte sequences are modelled as `List Nat` (each element a byte value).
The remote store is the Google Drive file tree the provider manipulates,
plus the provider instance's `rootFolderId` cache.  The wall clock
(`Date.now()`) is modelled as a field of the system state that is constant
during a single engine operation.  Fallible operations return an `Except`
result paired with the state reached at the point of return, so that
partial side effects before a thrown error remain observable.
-/

/-- Byte sequences (file contents, buffers, download payloads). -/
abbrev Bytes := List Nat

/-! ## SHA-256 (model of the external `crypto` primitive)

`ChecksumUtil` delegates hashing to Node's `crypto.createHash('sha256')`.
We implement the SHA-256 digest concretely (FIPS 180-4) over byte lists so
that every checksum in the development is executable. -/

/-- Truncate to a 32-bit word. -/
def w32 (x : Nat) : Nat := x % 4294967296

/-- 32-bit right rotation. -/
def rotr (n x : Nat) : Nat := w32 ((x >>> n) ||| (x <<< (32 - n)))

/-- SHA-256 round constants (FIPS 180-4, written in decimal). -/
def sha256K : List Nat :=
  [1116352408, 1899447441, 3049323471, 3921009573, 961987163,
   1508970993, 2453635748, 2870763221, 3624381080, 310598401,
   607225278, 1426881987, 1925078388, 2162078206, 2614888103,
   3248222580, 3835390401, 4022224774, 264347078, 604807628,
   770255983, 1249150122, 1555081692, 1996064986, 2554220882,
   2821834349, 2952996808, 3210313671, 3336571891, 3584528711,
   113926993, 338241895, 666307205, 773529912, 1294757372,
   1396182291, 1695183700, 1986661051, 2177026350, 2456956037,
   2730485921, 2820302411, 3259730800, 3345764771, 3516065817,
   3600352804, 4094571909, 275423344, 430227734, 506948616,
   659060556, 883997877, 958139571, 1322822218, 1537002063,
   1747873779, 1955562222, 2024104815, 2227730452, 2361852424,
   2428436474, 2756734187, 3204031479, 3329325298]

/-- SHA-256 initial hash value (FIPS 180-4, written in decimal). -/
def sha256H0 : List Nat :=
  [1779033703, 3144134277, 1013904242,
   2773480762, 1359893119, 2600822924,
   528734635, 1541459225]

/-- Working state of the compression function: the eight 32-bit registers. -/
structure Sha256Regs where
  a : Nat
  b : Nat
  c : Nat
  d : Nat
  e : Nat
  f : Nat
  g : Nat
  h : Nat
deriving DecidableEq, Repr

/-- One round of the SHA-256 compression function. -/
def sha256Round (st : Sha256Regs) (wk : Nat × Nat) : Sha256Regs :=
  let s1 := (rotr 6 st.e) ^^^ (rotr 11 st.e) ^^^ (rotr 25 st.e)
  let ch := (st.e &&& st.f) ^^^ ((st.e ^^^ 4294967295) &&& st.g)
  let t1 := w32 (st.h + s1 + ch + wk.2 + wk.1)
  let s0 := (rotr 2 st.a) ^^^ (rotr 13 st.a) ^^^ (rotr 22 st.a)
  let mj := (st.a &&& st.b) ^^^ (st.a &&& st.c) ^^^ (st.b &&& st.c)
  let t2 := w32 (s0 + mj)
  { a := w32 (t1 + t2), b := st.a, c := st.b, d := st.c,
    e := w32 (st.d + t1), f := st.e, g := st.f, h := st.g }

/-- Pack a byte list into big-endian 32-bit words, four bytes per word
(missing trailing bytes read as zero; padded input is always a multiple
of four bytes). -/
def toWords : Bytes → List Nat
  | [] => []
  | [a] => [a * 16777216]
  | [a, b] => [(a * 256 + b) * 65536]
  | [a, b, c] => [((a * 256 + b) * 256 + c) * 256]
  | a :: b :: c :: d :: rest => ((((a * 256 + b) * 256 + c) * 256 + d)) :: toWords rest

/-- Extend the sixteen message words of one block to the 64-entry schedule. -/
def extendSchedule (w : List Nat) : List Nat :=
  (List.range 48).foldl
    (fun acc _ =>
      let n := acc.length
      let x15 := acc.getD (n - 15) 0
      let x2 := acc.getD (n - 2) 0
      let s0 := (rotr 7 x15) ^^^ (rotr 18 x15) ^^^ (x15 >>> 3)
      let s1 := (rotr 17 x2) ^^^ (rotr 19 x2) ^^^ (x2 >>> 10)
      acc ++ [w32 (acc.getD (n - 16) 0 + s0 + acc.getD (n - 7) 0 + s1)])
    w

/-- Compress one 64-byte block into the running hash value. -/
def compressBlock (hv : List Nat) (block : Bytes) : List Nat :=
  let w := extendSchedule (toWords block)
  let init : Sha256Regs :=
    { a := hv.getD 0 0, b := hv.getD 1 0, c := hv.getD 2 0, d := hv.getD 3 0,
      e := hv.getD 4 0, f := hv.getD 5 0, g := hv.getD 6 0, h := hv.getD 7 0 }
  let st := (sha256K.zip w).foldl sha256Round init
  [w32 (hv.getD 0 0 + st.a), w32 (hv.getD 1 0 + st.b),
   w32 (hv.getD 2 0 + st.c), w32 (hv.getD 3 0 + st.d),
   w32 (hv.getD 4 0 + st.e), w32 (hv.getD 5 0 + st.f),
   w32 (hv.getD 6 0 + st.g), w32 (hv.getD 7 0 + st.h)]

/-- Split a byte list into 64-byte blocks, iterating on a structural fuel
argument so that the function reduces inside the kernel; `fuel` bounds the
number of blocks still to be produced. -/
def toBlocksAux : Nat → Bytes → List Bytes
  | 0, _ => []
  | _, [] => []
  | fuel + 1, l => l.take 64 :: toBlocksAux fuel (l.drop 64)

/-- Split a byte list into 64-byte blocks. -/
def toBlocks (l : Bytes) : List Bytes := toBlocksAux l.length l

/-- Big-endian 8-byte encoding of a natural number. -/
def be64 (n : Nat) : Bytes :=
  [(n >>> 56) % 256, (n >>> 48) % 256, (n >>> 40) % 256, (n >>> 32) % 256,
   (n >>> 24) % 256, (n >>> 16) % 256, (n >>> 8) % 256, n % 256]

/-- SHA-256 message padding: a 0x80 byte, zeros to 56 mod 64, then the
bit length as a big-endian 64-bit integer. -/
def padMessage (msg : Bytes) : Bytes :=
  let z := (119 - msg.length % 64) % 64
  msg ++ 128 :: List.replicate z 0 ++ be64 (8 * msg.length)

/-- The SHA-256 digest of a byte sequence, as eight 32-bit words. -/
def sha256Words (msg : Bytes) : List Nat :=
  (toBlocks (padMessage msg)).foldl compressBlock sha256H0

/-- A hexadecimal digit character. -/
def hexDigit (n : Nat) : Char :=
  if n < 10 then Char.ofNat (48 + n) else Char.ofNat (87 + n)

/-- Lowercase hexadecimal rendering of one 32-bit word (eight digits). -/
def hexWord (x : Nat) : List Char :=
  (List.range 8).map (fun i => hexDigit ((x >>> (28 - 4 * i)) % 16))

/-- The lowercase hex digest string, as produced by `hash.digest('hex')`. -/
def sha256hex (msg : Bytes) : String :=
  String.mk ((sha256Words msg).map hexWord).flatten

/-! ## ChecksumUtil (`src/utils/checksum.ts`)

`calculateFileChecksum` streams the file through an incremental hash object:
each stream chunk is fed to `hash.update`, and the digest is taken at end of
stream.  The incremental hash object of the external crypto library is
modelled by its defining semantics: it accumulates every byte passed to
`update`, and `digest` is the SHA-256 of the accumulated sequence. -/

/-- State of an incremental SHA-256 hash object: the bytes fed so far. -/
structure HashObj where
  acc : Bytes
deriving DecidableEq, Repr

/-- `crypto.createHash('sha256')`: a fresh hash object. -/
def HashObj.create : HashObj := ⟨[]⟩

/-- `hash.update(data)`: feed one chunk. -/
def HashObj.update (h : HashObj) (data : Bytes) : HashObj := ⟨h.acc ++ data⟩

/-- `hash.digest('hex')`: the hex digest of everything fed so far. -/
def HashObj.digest (h : HashObj) : String := sha256hex h.acc

namespace ChecksumUtil

/-- `ChecksumUtil.calculateBufferChecksum`: one-shot digest of a buffer. -/
def calculateBufferChecksum (buffer : Bytes) : String :=
  ((HashObj.create.update buffer)).digest

/-- `ChecksumUtil.calculateFileChecksum` at the stream level: the read stream
delivers the file's bytes as some sequence of chunks, each fed to the hash
object; the digest is resolved at end of stream. -/
def calculateFileChecksumChunks (chunks : List Bytes) : String :=
  (chunks.foldl HashObj.update HashObj.create).digest

/-- `ChecksumUtil.calculateFileChecksum` as a function of the file's
contents (the chunking is irrelevant, see `fileChecksum_eq_bufferChecksum`). -/
def calculateFileChecksum (fileBytes : Bytes) : String :=
  calculateFileChecksumChunks [fileBytes]

end ChecksumUtil

/-! ## Types (`src/types.ts`) -/

/-- `SyncType`: `'push' | 'pull' | 'bidirectional'`. -/
inductive SyncType where
  | push
  | pull
  | bidirectional
deriving DecidableEq, Repr

/-- `SyncResult` (`src/types.ts`).  The `error` field is optional in the
source and is modelled as an optional message. -/
structure SyncResult where
  success : Bool
  type : SyncType
  timestamp : Nat
  localChecksum : String
  cloudChecksum : String
  bytesTransferred : Nat
  duration : Nat
  error : Option String
deriving DecidableEq, Repr

/-- `SyncMetadata` (`src/types.ts`): the remote sync record. -/
structure SyncMetadata where
  dbName : String
  lastSyncTimestamp : Nat
  lastSyncType : SyncType
  checksum : String
  version : Nat
deriving DecidableEq, Repr

/-- `LocalMetadata` (`src/types.ts`): the local sync record. -/
structure LocalMetadata where
  lastSyncTimestamp : Nat
  lastSyncChecksum : String
deriving DecidableEq, Repr

/-- `Partial<LocalMetadata>`: each field optionally present. -/
structure LocalMetadataPatch where
  lastSyncTimestamp : Option Nat
  lastSyncChecksum : Option String
deriving DecidableEq, Repr

/-- `ProviderMetadata` (`src/types.ts`): what `provider.getMetadata` returns. -/
structure ProviderMetadata where
  checksum : String
  modifiedAt : Nat
  size : Nat
deriving DecidableEq, Repr

/-! ## JSON serialization of the remote record

`GoogleDriveProvider.updateMetadata` stores the remote record as
`Buffer.from(JSON.stringify(metadata, null, 2))` in the blob
`metadata.json`, and `getMetadata` reads it back with `JSON.parse`.
We model the exact two-space-indented JSON text produced for a
`SyncMetadata` object (escaping quotes and backslashes in strings), and a
parser for that shape; a parse failure models the `JSON.parse` throw. -/

/-- The opening brace character of a JSON object. -/
def braceOpen : Char := Char.ofNat 123

/-- The closing brace character of a JSON object. -/
def braceClose : Char := Char.ofNat 125

/-- JSON string escaping for the characters JSON.stringify always escapes
in the strings this system produces (backslash and double quote). -/
def escapeChars : List Char → List Char
  | [] => []
  | c :: cs =>
    if c = '"' ∨ c = '\\' then '\\' :: c :: escapeChars cs
    else c :: escapeChars cs

/-- The JSON rendering of a `SyncType` value. -/
def SyncType.toJsonStr : SyncType → String
  | SyncType.push => "push"
  | SyncType.pull => "pull"
  | SyncType.bidirectional => "bidirectional"

/-- The characters of `JSON.stringify(metadata, null, 2)`. -/
def metadataJsonChars (m : SyncMetadata) : List Char :=
  [braceOpen] ++ "\n  \"dbName\": \"".data ++ escapeChars m.dbName.data
    ++ "\",\n  \"lastSyncTimestamp\": ".data ++ (toString m.lastSyncTimestamp).data
    ++ ",\n  \"lastSyncType\": \"".data ++ m.lastSyncType.toJsonStr.data
    ++ "\",\n  \"checksum\": \"".data ++ escapeChars m.checksum.data
    ++ "\",\n  \"version\": ".data ++ (toString m.version).data
    ++ "\n".data ++ [braceClose]

/-- `Buffer.from(JSON.stringify(metadata, null, 2))`: the serialized remote
record as bytes. -/
def encodeMetadata (m : SyncMetadata) : Bytes :=
  (metadataJsonChars m).map Char.toNat

/-- Drop an expected literal character sequence from the input. -/
def dropLit : List Char → List Char → Option (List Char)
  | [], l => some l
  | p :: ps, c :: cs => if c = p then dropLit ps cs else none
  | _ :: _, [] => none

/-- Parse a JSON string body up to its closing quote, undoing escapes. -/
def parseJsonStr : List Char → Option (List Char × List Char)
  | [] => none
  | c :: cs =>
    if c = '"' then some ([], cs)
    else if c = '\\' then
      match cs with
      | [] => none
      | e :: cs2 => (parseJsonStr cs2).map (fun p => (e :: p.1, p.2))
    else (parseJsonStr cs).map (fun p => (c :: p.1, p.2))

/-- Parse a run of decimal digits as a natural number. -/
def parseJsonNat (l : List Char) : Option (Nat × List Char) :=
  let p := l.span (fun c => c.isDigit)
  if p.1 = [] then none
  else some (p.1.foldl (fun a c => a * 10 + (c.toNat - 48)) 0, p.2)

/-- Parse the JSON rendering of a `SyncType`. -/
def parseSyncType (s : String) : Option SyncType :=
  if s = "push" then some SyncType.push
  else if s = "pull" then some SyncType.pull
  else if s = "bidirectional" then some SyncType.bidirectional
  else none

/-- `JSON.parse` of a serialized remote record, specialized to the shape
`updateMetadata` writes; `none` models the `JSON.parse` throw on any other
content (the untyped cast `as SyncMetadata` is outside the typed model). -/
def decodeMetadata (bytes : Bytes) : Option SyncMetadata := do
  let l0 ← dropLit ([braceOpen] ++ "\n  \"dbName\": \"".data)
    (bytes.map Char.ofNat)
  let (dbn, l1) ← parseJsonStr l0
  let l2 ← dropLit ",\n  \"lastSyncTimestamp\": ".data l1
  let (ts, l3) ← parseJsonNat l2
  let l4 ← dropLit ",\n  \"lastSyncType\": \"".data l3
  let (ty, l5) ← parseJsonStr l4
  let tyv ← parseSyncType (String.mk ty)
  let l6 ← dropLit ",\n  \"checksum\": \"".data l5
  let (ck, l7) ← parseJsonStr l6
  let l8 ← dropLit ",\n  \"version\": ".data l7
  let (v, l9) ← parseJsonNat l8
  let l10 ← dropLit ("\n".data ++ [braceClose]) l9
  if l10 = [] then
    some { dbName := String.mk dbn, lastSyncTimestamp := ts,
           lastSyncType := tyv, checksum := String.mk ck, version := v }
  else none

/-! ## System state

The remote side is the Google Drive file tree the provider manipulates:
files and folders with ids, names, parent folders, a trashed flag and (for
regular files) their content.  `files.list` queries are modelled by
searching this list in order, and `files.create` by appending a file with
the next fresh id. -/

/-- One Drive file or folder. -/
structure DriveFile where
  id : Nat
  name : String
  parent : Option Nat
  isFolder : Bool
  trashed : Bool
  content : Bytes
deriving DecidableEq, Repr

/-- The Drive file tree plus a fresh-id counter. -/
structure DriveState where
  files : List DriveFile
  nextId : Nat
deriving DecidableEq, Repr

/-- Per-instance provider state: the `rootFolderId` cache of
`GoogleDriveProvider` (`null` until the first `ensureRootFolder` call). -/
structure ProviderState where
  rootFolderId : Option Nat
deriving DecidableEq, Repr

/-- Local side: the database file's bytes, its filesystem modification time
(`mtimeMs`), and the persisted `metadata.json` local record (`none` until
first written). -/
structure LocalState where
  dbFile : Bytes
  dbMtime : Nat
  meta : Option LocalMetadata
deriving DecidableEq, Repr

/-- The whole state an engine operation acts on.  `now` models `Date.now()`,
held constant during a single operation. -/
structure EngineState where
  loc : LocalState
  drive : DriveState
  prov : ProviderState
  now : Nat
deriving DecidableEq, Repr

/-! ## DatabaseManager (`src/core/db-manager.ts`)

`open`/`close` manage the SQLite handle; every read/replace below closes the
handle first, which has no effect on the modelled state. -/

namespace DatabaseManager

/-- `getBuffer`: read the whole database file. -/
def getBuffer (s : EngineState) : Bytes := s.loc.dbFile

/-- `getChecksum`: checksum of the on-disk file. -/
def getChecksum (s : EngineState) : String :=
  ChecksumUtil.calculateFileChecksum s.loc.dbFile

/-- `replaceWithBuffer`: atomically replace the database file (temp write +
rename); the rename gives the file a fresh modification time. -/
def replaceWithBuffer (s : EngineState) (buffer : Bytes) : EngineState :=
  { s with loc := { s.loc with dbFile := buffer, dbMtime := s.now } }

/-- `getLocalMetadata`: the persisted record, or the default when the
metadata file does not exist. -/
def getLocalMetadata (s : EngineState) : LocalMetadata :=
  s.loc.meta.getD { lastSyncTimestamp := 0, lastSyncChecksum := "" }

/-- The merge `{ ...current, ...metadata }`: fields present in the patch
overwrite, absent fields keep the current value. -/
def mergeMetadata (current : LocalMetadata) (patch : LocalMetadataPatch) :
    LocalMetadata :=
  { lastSyncTimestamp := patch.lastSyncTimestamp.getD current.lastSyncTimestamp,
    lastSyncChecksum := patch.lastSyncChecksum.getD current.lastSyncChecksum }

/-- `updateLocalMetadata`: read the current record, merge, persist. -/
def updateLocalMetadata (s : EngineState) (patch : LocalMetadataPatch) :
    EngineState :=
  { s with loc := { s.loc with
      meta := some (mergeMetadata (getLocalMetadata s) patch) } }

/-- `getModifiedTime`: `stat(dbPath).mtimeMs`. -/
def getModifiedTime (s : EngineState) : Nat := s.loc.dbMtime

end DatabaseManager

/-! ## GoogleDriveProvider
(`src/providers/google-drive`, the document following `TokenStorage`)

The provider the engine is constructed with.  `files.list` responses take
the first match in tree order (`response.data.files?.[0]`); `files.create`
appends with a fresh id; `files.update` rewrites the content of the file
with the given id.  Note `ensureRootFolder`'s behaviour, faithfully kept:
on its first call (cache empty) it returns the id of the *db subfolder*
while caching the id of the *root* folder, which every later call
returns. -/

namespace GoogleDriveProvider

/-- The provider's `dbName` constructor argument:
`path.basename(dbPath, path.extname(dbPath))` for the configured database
(`src/index.ts` line 50).  Its concrete value is immaterial to the engine;
any name distinct from the fixed blob names behaves identically. -/
def dbName : String := "mydb"

/-- `drive.files.create`: append a file with the next fresh id. -/
def createFile (s : EngineState) (name : String) (parent : Option Nat)
    (isFolder : Bool) (content : Bytes) : Nat × EngineState :=
  let fid := s.drive.nextId
  (fid, { s with drive :=
    { files := s.drive.files ++
        [{ id := fid, name := name, parent := parent, isFolder := isFolder,
           trashed := false, content := content }],
      nextId := fid + 1 } })

/-- `ensureDbFolder`: find or create the db-named subfolder of the cached
root folder. -/
def ensureDbFolder (s : EngineState) : Nat × EngineState :=
  match s.drive.files.find? (fun f =>
      f.name == dbName && f.isFolder && f.parent == s.prov.rootFolderId
        && !f.trashed) with
  | some f => (f.id, s)
  | none => createFile s dbName s.prov.rootFolderId true []

/-- `ensureRootFolder`: on a cache hit, return the cached root folder id;
otherwise find or create the root folder, cache its id, then find or create
the db subfolder and return *its* id. -/
def ensureRootFolder (s : EngineState) : Nat × EngineState :=
  match s.prov.rootFolderId with
  | some fid => (fid, s)
  | none =>
    let pr :=
      match s.drive.files.find? (fun f =>
          f.name == ".sqlite-cloud-backup" && f.isFolder && !f.trashed) with
      | some f => (f.id, s)
      | none => createFile s ".sqlite-cloud-backup" none true []
    let s2 := { pr.2 with prov := { rootFolderId := some pr.1 } }
    ensureDbFolder s2

/-- `findFile`: list files with the given name under the folder
`ensureRootFolder` returns, excluding trashed ones; first match or null. -/
def findFile (s : EngineState) (fileName : String) :
    Option DriveFile × EngineState :=
  let pr := ensureRootFolder s
  (pr.2.drive.files.find? (fun f =>
      f.name == fileName && f.parent == some pr.1 && !f.trashed), pr.2)

/-- `uploadFile`: find the file under the folder `ensureRootFolder` returns;
update its content when present, else create it there. -/
def uploadFile (s : EngineState) (fileName : String) (buffer : Bytes) :
    EngineState :=
  let pr := ensureRootFolder s
  let fr := findFile pr.2 fileName
  match fr.1 with
  | some existing =>
    { fr.2 with drive := { fr.2.drive with
        files := fr.2.drive.files.map (fun f =>
          if f.id == existing.id then { f with content := buffer } else f) } }
  | none => (createFile fr.2 fileName (some pr.1) false buffer).2

/-- `downloadFile`: the found file's content, or a thrown
`File not found: <name>` error. -/
def downloadFile (s : EngineState) (fileName : String) :
    Except String Bytes × EngineState :=
  let fr := findFile s fileName
  match fr.1 with
  | none => (Except.error ("File not found: " ++ fileName), fr.2)
  | some f => (Except.ok f.content, fr.2)

/-- `fileExists`: whether `findFile` found anything. -/
def fileExists (s : EngineState) (fileName : String) : Bool × EngineState :=
  let fr := findFile s fileName
  (fr.1.isSome, fr.2)

/-- `getMetadata`: ignores its file-name argument, reads the `metadata.json`
blob, parses it, and surfaces fingerprint and record timestamp with a size
of 0 (`// Not tracked in metadata`); null when the blob is absent. -/
def getMetadata (s : EngineState) (_fileName : String) :
    Except String (Option ProviderMetadata) × EngineState :=
  let fr := findFile s "metadata.json"
  match fr.1 with
  | none => (Except.ok none, fr.2)
  | some _ =>
    let dr := downloadFile fr.2 "metadata.json"
    match dr.1 with
    | Except.error e => (Except.error e, dr.2)
    | Except.ok buffer =>
      match decodeMetadata buffer with
      | none => (Except.error "Unexpected token in JSON", dr.2)
      | some m =>
        let pm : ProviderMetadata :=
          { checksum := m.checksum, modifiedAt := m.lastSyncTimestamp,
            size := 0 }
        (Except.ok (some pm), dr.2)

/-- `updateMetadata`: serialize the record and upload it as
`metadata.json`. -/
def updateMetadata (s : EngineState) (metadata : SyncMetadata) : EngineState :=
  uploadFile s "metadata.json" (encodeMetadata metadata)

end GoogleDriveProvider

/-! ## SyncEngine (`src/core/sync-engine.ts`)

Each operation returns the `Except` outcome (a `SyncResult` on success, the
thrown error's message on failure) paired with the state reached at the
point of return, so a thrown error exposes exactly the side effects
performed before the throw. -/

namespace SyncEngine

/-- `SyncEngine.pushToCloud` (sync-engine.ts lines 25–72). -/
def pushToCloud (s : EngineState) : Except String SyncResult × EngineState :=
  let buffer := DatabaseManager.getBuffer s
  let checksum := ChecksumUtil.calculateBufferChecksum buffer
  let s1 := GoogleDriveProvider.uploadFile s "current.db" buffer
  let metadata : SyncMetadata :=
    { dbName := "current", lastSyncTimestamp := s.now,
      lastSyncType := SyncType.push, checksum := checksum, version := 1 }
  let s2 := GoogleDriveProvider.updateMetadata s1 metadata
  let s3 := DatabaseManager.updateLocalMetadata s2
    { lastSyncTimestamp := some metadata.lastSyncTimestamp,
      lastSyncChecksum := some checksum }
  (Except.ok
    { success := true, type := SyncType.push, timestamp := s.now,
      localChecksum := checksum, cloudChecksum := checksum,
      bytesTransferred := buffer.length, duration := 0, error := none }, s3)

/-- `SyncEngine.pullFromCloud` (sync-engine.ts lines 77–124). -/
def pullFromCloud (s : EngineState) : Except String SyncResult × EngineState :=
  let er := GoogleDriveProvider.fileExists s "current.db"
  if !er.1 then
    (Except.error "No cloud version found", er.2)
  else
    let dr := GoogleDriveProvider.downloadFile er.2 "current.db"
    match dr.1 with
    | Except.error e => (Except.error e, dr.2)
    | Except.ok buffer =>
      let checksum := ChecksumUtil.calculateBufferChecksum buffer
      let mr := GoogleDriveProvider.getMetadata dr.2 "current.db"
      match mr.1 with
      | Except.error e => (Except.error e, mr.2)
      | Except.ok cloudMetadata =>
        let mismatch := match cloudMetadata with
          | some m => m.checksum != checksum
          | none => false
        if mismatch then
          (Except.error "Checksum mismatch - data corruption detected", mr.2)
        else
          let s4 := DatabaseManager.replaceWithBuffer mr.2 buffer
          let s5 := DatabaseManager.updateLocalMetadata s4
            { lastSyncTimestamp := some s.now,
              lastSyncChecksum := some checksum }
          (Except.ok
            { success := true, type := SyncType.pull, timestamp := s.now,
              localChecksum := checksum, cloudChecksum := checksum,
              bytesTransferred := buffer.length, duration := 0,
              error := none }, s5)

/-- `SyncEngine.sync` (sync-engine.ts lines 129–182). -/
def sync (s : EngineState) : Except String SyncResult × EngineState :=
  let er := GoogleDriveProvider.fileExists s "current.db"
  if !er.1 then
    pushToCloud er.2
  else
    let localChecksum := DatabaseManager.getChecksum er.2
    let mr := GoogleDriveProvider.getMetadata er.2 "current.db"
    match mr.1 with
    | Except.error e => (Except.error e, mr.2)
    | Except.ok none => pushToCloud mr.2
    | Except.ok (some cloudMetadata) =>
      if localChecksum = cloudMetadata.checksum then
        (Except.ok
          { success := true, type := SyncType.bidirectional,
            timestamp := s.now, localChecksum := localChecksum,
            cloudChecksum := cloudMetadata.checksum, bytesTransferred := 0,
            duration := 0, error := none }, mr.2)
      else
        let localModified := DatabaseManager.getModifiedTime mr.2
        if localModified > cloudMetadata.modifiedAt then
          pushToCloud mr.2
        else
          pullFromCloud mr.2

end SyncEngine

/-! ## Views and well-formedness -/

/-- The non-trashed file named `current.db` under folder `fid`: the remote
blob as the provider sees it once its folder cache holds `fid`. -/
def blobFile (s : EngineState) (fid : Nat) : Option DriveFile :=
  s.drive.files.find? (fun f =>
    f.name == "current.db" && f.parent == some fid && !f.trashed)

/-- The non-trashed file named `metadata.json` under folder `fid`: the
serialized remote record as the provider sees it once its folder cache
holds `fid`. -/
def recordFile (s : EngineState) (fid : Nat) : Option DriveFile :=
  s.drive.files.find? (fun f =>
    f.name == "metadata.json" && f.parent == some fid && !f.trashed)

/-- Well-formedness of a Drive tree, guaranteed by the real service: file
ids are pairwise distinct and below the fresh-id counter. -/
def DriveWf (d : DriveState) : Prop :=
  d.files.Pairwise (fun f g => f.id ≠ g.id) ∧ ∀ f ∈ d.files, f.id < d.nextId

/-! ## Concrete states used by witnesses, counterexamples and bug traces -/

/-- The pristine first-use state: non-empty local database, empty remote
store, fresh provider instance (folder cache unset). -/
def cleanStart : EngineState :=
  { loc := { dbFile := [118, 49], dbMtime := 5, meta := none },
    drive := { files := [], nextId := 1 },
    prov := { rootFolderId := none }, now := 10 }

/-- The record a push of content `v1` at time 7 serializes. -/
def recV1 : SyncMetadata :=
  { dbName := "current", lastSyncTimestamp := 7,
    lastSyncType := SyncType.push,
    checksum := ChecksumUtil.calculateBufferChecksum [118, 49], version := 1 }

/-- The remote layout a pristine `push()` leaves behind: `current.db` under
the db subfolder (id 2), `metadata.json` under the root folder (id 1), the
record's fingerprint matching the local file. -/
def day2Files : List DriveFile :=
  [ { id := 1, name := ".sqlite-cloud-backup", parent := none,
      isFolder := true, trashed := false, content := [] },
    { id := 2, name := "mydb", parent := some 1,
      isFolder := true, trashed := false, content := [] },
    { id := 3, name := "current.db", parent := some 2,
      isFolder := false, trashed := false, content := [118, 49] },
    { id := 4, name := "metadata.json", parent := some 1,
      isFolder := false, trashed := false, content := encodeMetadata recV1 } ]

/-- The split layout probed by a fresh provider instance (cache unset). -/
def day2State : EngineState :=
  { loc := { dbFile := [118, 49], dbMtime := 5, meta := none },
    drive := { files := day2Files, nextId := 5 },
    prov := { rootFolderId := none }, now := 10 }

/-- Blob and matching record both under the db subfolder (id 2). -/
def splitFiles : List DriveFile :=
  [ { id := 1, name := ".sqlite-cloud-backup", parent := none,
      isFolder := true, trashed := false, content := [] },
    { id := 2, name := "mydb", parent := some 1,
      isFolder := true, trashed := false, content := [] },
    { id := 3, name := "current.db", parent := some 2,
      isFolder := false, trashed := false, content := [118, 49] },
    { id := 4, name := "metadata.json", parent := some 2,
      isFolder := false, trashed := false, content := encodeMetadata recV1 } ]

/-- A state whose store holds the blob and a matching record (under the db
subfolder), while the provider's folder cache points at the root folder. -/
def cacheSplitState : EngineState :=
  { loc := { dbFile := [118, 49], dbMtime := 5, meta := none },
    drive := { files := splitFiles, nextId := 5 },
    prov := { rootFolderId := some 1 }, now := 10 }

/-- Remote layout for the tie-break case: blob `v2` and a record dated 5
whose fingerprint `c2` matches neither side, all under the root folder. -/
def tieFiles : List DriveFile :=
  [ { id := 1, name := ".sqlite-cloud-backup", parent := none,
      isFolder := true, trashed := false, content := [] },
    { id := 2, name := "current.db", parent := some 1,
      isFolder := false, trashed := false, content := [118, 50] },
    { id := 3, name := "metadata.json", parent := some 1,
      isFolder := false, trashed := false,
      content := encodeMetadata
        { dbName := "current", lastSyncTimestamp := 5,
          lastSyncType := SyncType.push, checksum := "c2", version := 1 } } ]

/-- A cache-initialized state whose blob and record diverge from the local
file, with equal local modification time and record timestamp. -/
def exampleTie : EngineState :=
  { loc := { dbFile := [118, 49], dbMtime := 5, meta := none },
    drive := { files := tieFiles, nextId := 4 },
    prov := { rootFolderId := some 1 }, now := 10 }

/-- Remote layout whose record fingerprint `bad` matches neither the blob
`[1]` nor the local file. -/
def corruptFiles : List DriveFile :=
  [ { id := 1, name := ".sqlite-cloud-backup", parent := none,
      isFolder := true, trashed := false, content := [] },
    { id := 2, name := "current.db", parent := some 1,
      isFolder := false, trashed := false, content := [1] },
    { id := 3, name := "metadata.json", parent := some 1,
      isFolder := false, trashed := false,
      content := encodeMetadata
        { dbName := "current", lastSyncTimestamp := 9,
          lastSyncType := SyncType.push, checksum := "bad", version := 1 } } ]

/-- A cache-initialized state with a corrupt remote record. -/
def examplePullCorrupt : EngineState :=
  { loc := { dbFile := [3], dbMtime := 0, meta := none },
    drive := { files := corruptFiles, nextId := 4 },
    prov := { rootFolderId := some 1 }, now := 10 }

/-- A state with a persisted local record. -/
def exampleMeta : EngineState :=
  { loc := { dbFile := [7], dbMtime := 1,
             meta := some { lastSyncTimestamp := 3, lastSyncChecksum := "old" } },
    drive := { files := [], nextId := 1 },
    prov := { rootFolderId := none }, now := 2 }

/-! ## Helper lemmas -/

/-- Feeding a sequence of chunks to an incremental hash object accumulates
their concatenation. -/
lemma foldl_update_acc (chunks : List Bytes) :
    ∀ a : Bytes, (chunks.foldl HashObj.update ⟨a⟩).acc = a ++ chunks.flatten := by
  induction chunks with
  | nil => intro a; simp
  | cons c cs ih =>
    intro a
    simp only [List.foldl_cons, HashObj.update, List.flatten_cons, ih,
               List.append_assoc]

/-- With the folder cache set, `ensureRootFolder` is the identity and
returns the cached id. -/
lemma ensureRootFolder_cached (s : EngineState) (fid : Nat)
    (hc : s.prov.rootFolderId = some fid) :
    GoogleDriveProvider.ensureRootFolder s = (fid, s) := by
  simp [GoogleDriveProvider.ensureRootFolder, hc]

/-- With the folder cache set, `findFile "current.db"` probes the blob view
and leaves the state unchanged. -/
lemma findFile_cached_blob (s : EngineState) (fid : Nat)
    (hc : s.prov.rootFolderId = some fid) :
    GoogleDriveProvider.findFile s "current.db" = (blobFile s fid, s) := by
  simp [GoogleDriveProvider.findFile, ensureRootFolder_cached s fid hc,
        blobFile]

/-- With the folder cache set, `findFile "metadata.json"` probes the record
view and leaves the state unchanged. -/
lemma findFile_cached_record (s : EngineState) (fid : Nat)
    (hc : s.prov.rootFolderId = some fid) :
    GoogleDriveProvider.findFile s "metadata.json" = (recordFile s fid, s) := by
  simp [GoogleDriveProvider.findFile, ensureRootFolder_cached s fid hc,
        recordFile]

/-- With the folder cache set, `fileExists "current.db"` reports whether the
blob view holds a file. -/
lemma fileExists_cached (s : EngineState) (fid : Nat)
    (hc : s.prov.rootFolderId = some fid) :
    GoogleDriveProvider.fileExists s "current.db" =
      ((blobFile s fid).isSome, s) := by
  simp [GoogleDriveProvider.fileExists, findFile_cached_blob s fid hc]

/-- With the folder cache set, `downloadFile "current.db"` returns the blob
view's content or the not-found error, leaving the state unchanged. -/
lemma downloadFile_cached (s : EngineState) (fid : Nat)
    (hc : s.prov.rootFolderId = some fid) :
    GoogleDriveProvider.downloadFile s "current.db" =
      (match blobFile s fid with
       | none => Except.error "File not found: current.db"
       | some f => Except.ok f.content, s) := by
  cases hb : blobFile s fid <;>
    simp [GoogleDriveProvider.downloadFile, findFile_cached_blob s fid hc, hb]

/-- With the folder cache set, `getMetadata` reads and parses the record
view, leaving the state unchanged. -/
lemma getMetadata_cached (s : EngineState) (fid : Nat) (name : String)
    (hc : s.prov.rootFolderId = some fid) :
    GoogleDriveProvider.getMetadata s name =
      (match recordFile s fid with
       | none => Except.ok none
       | some g =>
         match decodeMetadata g.content with
         | none => Except.error "Unexpected token in JSON"
         | some m =>
           Except.ok
             (some (ProviderMetadata.mk m.checksum m.lastSyncTimestamp 0)),
       s) := by
  cases hg : recordFile s fid with
  | none =>
    simp [GoogleDriveProvider.getMetadata, findFile_cached_record s fid hc, hg]
  | some g =>
    cases hd : decodeMetadata g.content <;>
      simp [GoogleDriveProvider.getMetadata, findFile_cached_record s fid hc,
            hg, GoogleDriveProvider.downloadFile, hd]

/-- Pull when the blob view is empty: the not-found error, no state
change. -/
lemma pullFromCloud_no_blob (s : EngineState) (fid : Nat)
    (hc : s.prov.rootFolderId = some fid) (hb : blobFile s fid = none) :
    SyncEngine.pullFromCloud s = (Except.error "No cloud version found", s) := by
  simp [SyncEngine.pullFromCloud, fileExists_cached s fid hc, hb]

/-- Pull when the record view parses to a fingerprint disagreeing with the
downloaded blob: the corruption error, no state change. -/
lemma pullFromCloud_mismatch (s : EngineState) (fid : Nat) (f g : DriveFile)
    (m : SyncMetadata) (hc : s.prov.rootFolderId = some fid)
    (hb : blobFile s fid = some f) (hr : recordFile s fid = some g)
    (hd : decodeMetadata g.content = some m)
    (hm : m.checksum ≠ ChecksumUtil.calculateBufferChecksum f.content) :
    SyncEngine.pullFromCloud s =
      (Except.error "Checksum mismatch - data corruption detected", s) := by
  simp [SyncEngine.pullFromCloud, fileExists_cached s fid hc,
        downloadFile_cached s fid hc, getMetadata_cached s fid _ hc,
        hb, hr, hd, hm]

/-- Pull in the successful case (no record, or a record parsing to the
downloaded blob's fingerprint), in closed form. -/
lemma pullFromCloud_ok (s : EngineState) (fid : Nat) (f : DriveFile)
    (hc : s.prov.rootFolderId = some fid) (hb : blobFile s fid = some f)
    (hv : ∀ g, recordFile s fid = some g → ∃ m,
        decodeMetadata g.content = some m ∧
        m.checksum = ChecksumUtil.calculateBufferChecksum f.content) :
    SyncEngine.pullFromCloud s =
      (Except.ok
        { success := true, type := SyncType.pull, timestamp := s.now,
          localChecksum := ChecksumUtil.calculateBufferChecksum f.content,
          cloudChecksum := ChecksumUtil.calculateBufferChecksum f.content,
          bytesTransferred := f.content.length, duration := 0, error := none },
       { s with loc :=
          { dbFile := f.content, dbMtime := s.now,
            meta := some
              { lastSyncTimestamp := s.now,
                lastSyncChecksum :=
                  ChecksumUtil.calculateBufferChecksum f.content } } }) := by
  cases hg : recordFile s fid with
  | none =>
    simp [SyncEngine.pullFromCloud, fileExists_cached s fid hc,
          downloadFile_cached s fid hc, getMetadata_cached s fid _ hc, hb, hg,
          DatabaseManager.replaceWithBuffer, DatabaseManager.updateLocalMetadata,
          DatabaseManager.mergeMetadata, DatabaseManager.getLocalMetadata]
  | some g =>
    obtain ⟨m, hd, hmc⟩ := hv g hg
    simp [SyncEngine.pullFromCloud, fileExists_cached s fid hc,
          downloadFile_cached s fid hc, getMetadata_cached s fid _ hc, hb, hg,
          hd, hmc,
          DatabaseManager.replaceWithBuffer, DatabaseManager.updateLocalMetadata,
          DatabaseManager.mergeMetadata, DatabaseManager.getLocalMetadata]

/-- Sync when the blob view is empty delegates to push. -/
lemma sync_no_blob (s : EngineState) (fid : Nat)
    (hc : s.prov.rootFolderId = some fid) (hb : blobFile s fid = none) :
    SyncEngine.sync s = SyncEngine.pushToCloud s := by
  simp [SyncEngine.sync, fileExists_cached s fid hc, hb]

/-- Sync when the blob exists but the record view is empty delegates to
push. -/
lemma sync_no_record (s : EngineState) (fid : Nat) (f : DriveFile)
    (hc : s.prov.rootFolderId = some fid) (hb : blobFile s fid = some f)
    (hr : recordFile s fid = none) :
    SyncEngine.sync s = SyncEngine.pushToCloud s := by
  simp [SyncEngine.sync, fileExists_cached s fid hc,
        getMetadata_cached s fid _ hc, hb, hr]

/-- Sync when the local fingerprint equals the record's fingerprint: the
no-op result, no state change, no transfer. -/
lemma sync_insync (s : EngineState) (fid : Nat) (f g : DriveFile)
    (m : SyncMetadata) (hc : s.prov.rootFolderId = some fid)
    (hb : blobFile s fid = some f) (hr : recordFile s fid = some g)
    (hd : decodeMetadata g.content = some m)
    (heq : DatabaseManager.getChecksum s = m.checksum) :
    SyncEngine.sync s =
      (Except.ok
        { success := true, type := SyncType.bidirectional, timestamp := s.now,
          localChecksum := DatabaseManager.getChecksum s,
          cloudChecksum := m.checksum, bytesTransferred := 0, duration := 0,
          error := none }, s) := by
  simp [SyncEngine.sync, fileExists_cached s fid hc,
        getMetadata_cached s fid _ hc, hb, hr, hd, heq]

/-- Sync in the divergent case with a strictly newer local file delegates to
push. -/
lemma sync_local_newer (s : EngineState) (fid : Nat) (f g : DriveFile)
    (m : SyncMetadata) (hc : s.prov.rootFolderId = some fid)
    (hb : blobFile s fid = some f) (hr : recordFile s fid = some g)
    (hd : decodeMetadata g.content = some m)
    (hne : DatabaseManager.getChecksum s ≠ m.checksum)
    (hm : m.lastSyncTimestamp < DatabaseManager.getModifiedTime s) :
    SyncEngine.sync s = SyncEngine.pushToCloud s := by
  simp [SyncEngine.sync, fileExists_cached s fid hc,
        getMetadata_cached s fid _ hc, hb, hr, hd, hne,
        DatabaseManager.getModifiedTime] at hm ⊢
  simp [hm]

/-- Sync in the divergent case with a local modification time at most the
record timestamp delegates to pull. -/
lemma sync_local_older (s : EngineState) (fid : Nat) (f g : DriveFile)
    (m : SyncMetadata) (hc : s.prov.rootFolderId = some fid)
    (hb : blobFile s fid = some f) (hr : recordFile s fid = some g)
    (hd : decodeMetadata g.content = some m)
    (hne : DatabaseManager.getChecksum s ≠ m.checksum)
    (hm : DatabaseManager.getModifiedTime s ≤ m.lastSyncTimestamp) :
    SyncEngine.sync s = SyncEngine.pullFromCloud s := by
  have hm' : ¬ m.lastSyncTimestamp < DatabaseManager.getModifiedTime s :=
    not_lt.mpr hm
  simp [SyncEngine.sync, fileExists_cached s fid hc,
        getMetadata_cached s fid _ hc, hb, hr, hd, hne,
        DatabaseManager.getModifiedTime] at hm' ⊢
  simp [hm']

/-- `files.create` preserves Drive well-formedness. -/
lemma createFile_wf (s : EngineState) (name : String) (parent : Option Nat)
    (isF : Bool) (content : Bytes) (hwf : DriveWf s.drive) :
    DriveWf (GoogleDriveProvider.createFile s name parent isF content).2.drive := by
  obtain ⟨hp, hb⟩ := hwf
  constructor
  · refine List.pairwise_append.mpr ⟨hp, List.pairwise_singleton _ _, ?_⟩
    intro a ha b hbm
    simp only [GoogleDriveProvider.createFile, List.mem_singleton] at hbm
    have h1 := hb a ha
    subst hbm
    show a.id ≠ s.drive.nextId
    omega
  · intro f hf
    simp only [GoogleDriveProvider.createFile, List.mem_append,
               List.mem_singleton] at hf
    show f.id < s.drive.nextId + 1
    rcases hf with hf | hf
    · have := hb f hf
      omega
    · subst hf
      show s.drive.nextId < s.drive.nextId + 1
      omega

/-- The effects of `ensureDbFolder`: it only ever appends the db-named
folder, touching nothing else. -/
lemma ensureDbFolder_spec (s : EngineState) :
    ∃ extra : List DriveFile,
      (GoogleDriveProvider.ensureDbFolder s).2.drive.files =
        s.drive.files ++ extra ∧
      (∀ f ∈ extra, f.isFolder = true ∧ f.name = GoogleDriveProvider.dbName) ∧
      (GoogleDriveProvider.ensureDbFolder s).2.loc = s.loc ∧
      (GoogleDriveProvider.ensureDbFolder s).2.now = s.now ∧
      (GoogleDriveProvider.ensureDbFolder s).2.prov = s.prov ∧
      (DriveWf s.drive → DriveWf (GoogleDriveProvider.ensureDbFolder s).2.drive) := by
  cases hf : s.drive.files.find? (fun f =>
      f.name == GoogleDriveProvider.dbName && f.isFolder &&
        f.parent == s.prov.rootFolderId && !f.trashed) with
  | some f =>
    refine ⟨[], ?_⟩
    simp [GoogleDriveProvider.ensureDbFolder, hf]
  | none =>
    refine ⟨[⟨s.drive.nextId, GoogleDriveProvider.dbName,
      s.prov.rootFolderId, true, false, []⟩], ?_⟩
    refine ⟨?_, ?_, ?_, ?_, ?_, ?_⟩ <;>
      simp [GoogleDriveProvider.ensureDbFolder, hf,
            GoogleDriveProvider.createFile]
    exact fun hwf => createFile_wf s _ _ _ _ hwf

/-- The effects of `ensureRootFolder`: it only ever appends the root and db
folders, sets the folder cache, and touches nothing else. -/
lemma ensureRootFolder_spec (s : EngineState) :
    ∃ extra : List DriveFile,
      (GoogleDriveProvider.ensureRootFolder s).2.drive.files =
        s.drive.files ++ extra ∧
      (∀ f ∈ extra, f.isFolder = true ∧
        (f.name = ".sqlite-cloud-backup" ∨
         f.name = GoogleDriveProvider.dbName)) ∧
      (GoogleDriveProvider.ensureRootFolder s).2.loc = s.loc ∧
      (GoogleDriveProvider.ensureRootFolder s).2.now = s.now ∧
      (GoogleDriveProvider.ensureRootFolder s).2.prov.rootFolderId.isSome = true ∧
      (DriveWf s.drive →
        DriveWf (GoogleDriveProvider.ensureRootFolder s).2.drive) := by
  cases hc : s.prov.rootFolderId with
  | some fid =>
    refine ⟨[], ?_⟩
    simp [ensureRootFolder_cached s fid hc, hc]
  | none =>
    cases hroot : s.drive.files.find? (fun f =>
        f.name == ".sqlite-cloud-backup" && f.isFolder && !f.trashed) with
    | some f =>
      have hun : GoogleDriveProvider.ensureRootFolder s =
          GoogleDriveProvider.ensureDbFolder
            { s with prov := { rootFolderId := some f.id } } := by
        simp [GoogleDriveProvider.ensureRootFolder, hc, hroot]
      obtain ⟨extra, h1, h2, h3, h4, h5, h6⟩ :=
        ensureDbFolder_spec { s with prov := { rootFolderId := some f.id } }
      exact ⟨extra, by rw [hun]; exact h1,
        fun x hx => ⟨(h2 x hx).1, Or.inr (h2 x hx).2⟩,
        by rw [hun]; exact h3, by rw [hun]; exact h4,
        by rw [hun, h5]; rfl, by rw [hun]; exact h6⟩
    | none =>
      set s1 := (GoogleDriveProvider.createFile s ".sqlite-cloud-backup"
        none true []).2 with hs1
      set rid := (GoogleDriveProvider.createFile s ".sqlite-cloud-backup"
        none true []).1 with hrid
      have hun : GoogleDriveProvider.ensureRootFolder s =
          GoogleDriveProvider.ensureDbFolder
            { s1 with prov := { rootFolderId := some rid } } := by
        simp [GoogleDriveProvider.ensureRootFolder, hc, hroot]
      obtain ⟨extra, h1, h2, h3, h4, h5, h6⟩ :=
        ensureDbFolder_spec { s1 with prov := { rootFolderId := some rid } }
      refine ⟨⟨s.drive.nextId, ".sqlite-cloud-backup", none, true, false, []⟩
        :: extra, ?_, ?_, ?_, ?_, ?_, ?_⟩
      · rw [hun, h1]
        simp [hs1, GoogleDriveProvider.createFile]
      · intro f hf
        rcases List.mem_cons.mp hf with hf | hf
        · rw [hf]
          exact ⟨rfl, Or.inl rfl⟩
        · exact ⟨(h2 f hf).1, Or.inr (h2 f hf).2⟩
      · rw [hun, h3]
        simp [hs1, GoogleDriveProvider.createFile]
      · rw [hun, h4]
        simp [hs1, GoogleDriveProvider.createFile]
      · rw [hun, h5]
        rfl
      · intro hwf
        rw [hun]
        refine h6 ?_
        exact createFile_wf s _ _ _ _ hwf

/-- The effects of `uploadFile`: it never touches the local side or the
clock, it leaves behind a non-trashed file with the uploaded name and
content, it preserves Drive well-formedness, and (in a well-formed tree) it
keeps every file of any other name. -/
lemma uploadFile_spec (s : EngineState) (fileName : String) (b : Bytes) :
    (GoogleDriveProvider.uploadFile s fileName b).loc = s.loc ∧
    (GoogleDriveProvider.uploadFile s fileName b).now = s.now ∧
    (∃ f ∈ (GoogleDriveProvider.uploadFile s fileName b).drive.files,
        f.name = fileName ∧ f.trashed = false ∧ f.content = b) ∧
    (DriveWf s.drive →
        DriveWf (GoogleDriveProvider.uploadFile s fileName b).drive) ∧
    (DriveWf s.drive → ∀ g ∈ s.drive.files, g.name ≠ fileName →
        g ∈ (GoogleDriveProvider.uploadFile s fileName b).drive.files) := by
  obtain ⟨extra, hfiles, hfold, hloc, hnow, hsome, hwfp⟩ :=
    ensureRootFolder_spec s
  obtain ⟨fid, hfid⟩ : ∃ fid,
      (GoogleDriveProvider.ensureRootFolder s).2.prov.rootFolderId = some fid := by
    cases h : (GoogleDriveProvider.ensureRootFolder s).2.prov.rootFolderId with
    | none => rw [h] at hsome; simp at hsome
    | some fid => exact ⟨fid, rfl⟩
  have hff : GoogleDriveProvider.findFile
      (GoogleDriveProvider.ensureRootFolder s).2 fileName =
      ((GoogleDriveProvider.ensureRootFolder s).2.drive.files.find? (fun f =>
         f.name == fileName && f.parent == some fid && !f.trashed),
       (GoogleDriveProvider.ensureRootFolder s).2) := by
    simp [GoogleDriveProvider.findFile,
          ensureRootFolder_cached _ fid hfid]
  have hup : GoogleDriveProvider.uploadFile s fileName b =
      match ((GoogleDriveProvider.ensureRootFolder s).2.drive.files.find?
          (fun f => f.name == fileName && f.parent == some fid && !f.trashed)) with
      | some existing =>
        { (GoogleDriveProvider.ensureRootFolder s).2 with drive :=
          { (GoogleDriveProvider.ensureRootFolder s).2.drive with
            files := (GoogleDriveProvider.ensureRootFolder s).2.drive.files.map
              (fun f => if f.id == existing.id then { f with content := b }
                else f) } }
      | none =>
        (GoogleDriveProvider.createFile
          (GoogleDriveProvider.ensureRootFolder s).2 fileName
          (some (GoogleDriveProvider.ensureRootFolder s).1) false b).2 := by
    simp only [GoogleDriveProvider.uploadFile, hff]
  cases hfind : ((GoogleDriveProvider.ensureRootFolder s).2.drive.files.find?
      (fun f => f.name == fileName && f.parent == some fid && !f.trashed)) with
  | some f0 =>
    rw [hfind] at hup
    have hf0mem := List.mem_of_find?_eq_some hfind
    have hf0pred := List.find?_some hfind
    simp only [Bool.and_eq_true, beq_iff_eq, Bool.not_eq_eq_eq_not,
               Bool.not_true, decide_eq_true_eq] at hf0pred
    obtain ⟨⟨hf0name, -⟩, hf0tr⟩ := hf0pred
    refine ⟨by rw [hup]; exact hloc, by rw [hup]; exact hnow, ?_, ?_, ?_⟩
    · refine ⟨{ f0 with content := b }, ?_, by simpa using hf0name,
        by simpa using hf0tr, rfl⟩
      rw [hup]
      refine List.mem_map.mpr ⟨f0, hf0mem, ?_⟩
      simp
    · intro hwf
      have hwf1 := hwfp hwf
      obtain ⟨hp1, hb1⟩ := hwf1
      rw [hup]
      constructor
      · refine (List.pairwise_map).mpr ?_
        refine hp1.imp ?_
        intro a c hac
        have ha : (if a.id == f0.id then { a with content := b } else a).id =
            a.id := by
          split <;> rfl
        have hcc : (if c.id == f0.id then { c with content := b } else c).id =
            c.id := by
          split <;> rfl
        rw [ha, hcc]
        exact hac
      · intro f hf
        obtain ⟨a, ham, hae⟩ := List.mem_map.mp hf
        have ha : (if a.id == f0.id then { a with content := b } else a).id =
            a.id := by
          split <;> rfl
        rw [← hae, ha]
        exact hb1 a ham
    · intro hwf g hg hgname
      have hwf1 := hwfp hwf
      obtain ⟨hp1, -⟩ := hwf1
      have hgmem : g ∈ (GoogleDriveProvider.ensureRootFolder s).2.drive.files := by
        rw [hfiles]
        exact List.mem_append_left _ hg
      have hgne : g ≠ f0 := by
        intro he
        rw [he] at hgname
        exact hgname hf0name
      have hid : g.id ≠ f0.id := by
        have hsymm : Symmetric (fun x y : DriveFile => x.id ≠ y.id) :=
          fun x y hxy => hxy.symm
        exact hp1.forall hsymm hgmem hf0mem hgne
      rw [hup]
      refine List.mem_map.mpr ⟨g, hgmem, ?_⟩
      simp [hid]
  | none =>
    rw [hfind] at hup
    refine ⟨by rw [hup]; exact hloc, by rw [hup]; exact hnow, ?_, ?_, ?_⟩
    · refine ⟨⟨(GoogleDriveProvider.ensureRootFolder s).2.drive.nextId,
        fileName, some (GoogleDriveProvider.ensureRootFolder s).1, false,
        false, b⟩, ?_, rfl, rfl, rfl⟩
      rw [hup]
      simp [GoogleDriveProvider.createFile]
    · intro hwf
      rw [hup]
      exact createFile_wf _ _ _ _ _ (hwfp hwf)
    · intro hwf g hg hgname
      rw [hup]
      simp only [GoogleDriveProvider.createFile, List.mem_append]
      left
      rw [hfiles]
      exact List.mem_append_left _ hg

/-- With the folder cache set, `findFile` leaves the state unchanged. -/
lemma findFile_state_cached (s : EngineState) (name : String)
    (h : s.prov.rootFolderId.isSome = true) :
    (GoogleDriveProvider.findFile s name).2 = s := by
  obtain ⟨fid, hfid⟩ := Option.isSome_iff_exists.mp h
  simp [GoogleDriveProvider.findFile, ensureRootFolder_cached s fid hfid]

/-- With the folder cache set, `downloadFile` leaves the state unchanged. -/
lemma downloadFile_state_cached (s : EngineState) (name : String)
    (h : s.prov.rootFolderId.isSome = true) :
    (GoogleDriveProvider.downloadFile s name).2 = s := by
  simp only [GoogleDriveProvider.downloadFile]
  rw [findFile_state_cached s name h]
  split <;> rfl

/-- With the folder cache set, `getMetadata` leaves the state unchanged. -/
lemma getMetadata_state_cached (s : EngineState) (name : String)
    (h : s.prov.rootFolderId.isSome = true) :
    (GoogleDriveProvider.getMetadata s name).2 = s := by
  simp only [GoogleDriveProvider.getMetadata]
  rw [findFile_state_cached s "metadata.json" h]
  have hd := downloadFile_state_cached s "metadata.json" h
  split
  · rfl
  · rw [hd]
    split
    · rfl
    · split <;> rfl

/-- The state `fileExists` returns: the one `ensureRootFolder` produced,
whose folder cache is set. -/
lemma fileExists_state (s : EngineState) (name : String) :
    (GoogleDriveProvider.fileExists s name).2 =
      (GoogleDriveProvider.ensureRootFolder s).2 := rfl

/-- Whatever branch pull takes, it only ever changes the Drive tree by the
folder provisioning of its initial existence probe, and only ever changes
the local side through the replace/record steps. -/
lemma pullFromCloud_drive (s : EngineState) :
    (SyncEngine.pullFromCloud s).2.drive =
      (GoogleDriveProvider.ensureRootFolder s).2.drive := by
  obtain ⟨extra, hfiles, hfold, hloc, hnow, hsome, hwfp⟩ :=
    ensureRootFolder_spec s
  have h1 : (GoogleDriveProvider.fileExists s "current.db").2 =
      (GoogleDriveProvider.ensureRootFolder s).2 := rfl
  set s1 := (GoogleDriveProvider.ensureRootFolder s).2 with hs1
  have hdl := downloadFile_state_cached s1 "current.db" hsome
  have hmd := getMetadata_state_cached s1 "current.db" hsome
  simp only [SyncEngine.pullFromCloud, h1]
  split
  · rfl
  · rw [hdl]
    split
    · rfl
    · rw [hmd]
      split
      · rfl
      · split
        · rfl
        · simp [DatabaseManager.replaceWithBuffer,
                DatabaseManager.updateLocalMetadata]

/-! ## Claims -/

/-- Claim C7: the digest computed incrementally over any chunking of a byte
sequence B equals the one-shot buffer digest of B, and the buffer digest is
deterministic. -/
theorem fileChecksum_eq_bufferChecksum (B : Bytes) (chunks : List Bytes)
    (h : chunks.flatten = B) :
    ChecksumUtil.calculateFileChecksumChunks chunks =
      ChecksumUtil.calculateBufferChecksum B ∧
    ChecksumUtil.calculateBufferChecksum B =
      ChecksumUtil.calculateBufferChecksum B := by
  refine ⟨?_, rfl⟩
  simp [ChecksumUtil.calculateFileChecksumChunks,
        ChecksumUtil.calculateBufferChecksum, HashObj.digest, HashObj.create,
        HashObj.update, foldl_update_acc, h]

/-- Claim C7 witness: the chunking invariance at a concrete chunking. -/
theorem fileChecksum_eq_bufferChecksum_witness :
    ChecksumUtil.calculateFileChecksumChunks [[104], [105]] =
      ChecksumUtil.calculateBufferChecksum [104, 105] ∧
    ChecksumUtil.calculateBufferChecksum [104, 105] =
      ChecksumUtil.calculateBufferChecksum [104, 105] :=
  fileChecksum_eq_bufferChecksum [104, 105] [[104], [105]] rfl

/-- Claim C8: updating the local record with a partial patch persists a
record whose fields present in the patch take the patch's values and whose
absent fields keep the previously persisted values. -/
theorem updateLocalMetadata_merge (s : EngineState) (R : LocalMetadata)
    (p : LocalMetadataPatch) (h : s.loc.meta = some R) :
    ∃ R', (DatabaseManager.updateLocalMetadata s p).loc.meta = some R' ∧
      (∀ v, p.lastSyncTimestamp = some v → R'.lastSyncTimestamp = v) ∧
      (p.lastSyncTimestamp = none →
        R'.lastSyncTimestamp = R.lastSyncTimestamp) ∧
      (∀ c, p.lastSyncChecksum = some c → R'.lastSyncChecksum = c) ∧
      (p.lastSyncChecksum = none →
        R'.lastSyncChecksum = R.lastSyncChecksum) := by
  refine ⟨DatabaseManager.mergeMetadata R p, ?_, ?_, ?_, ?_, ?_⟩
  · simp [DatabaseManager.updateLocalMetadata,
          DatabaseManager.getLocalMetadata, h]
  · intro v hv; simp [DatabaseManager.mergeMetadata, hv]
  · intro hv; simp [DatabaseManager.mergeMetadata, hv]
  · intro c hc; simp [DatabaseManager.mergeMetadata, hc]
  · intro hc; simp [DatabaseManager.mergeMetadata, hc]

/-- Claim C8 witness: a partial update at a concrete state, patching only
the timestamp. -/
theorem updateLocalMetadata_merge_witness :
    ∃ R', (DatabaseManager.updateLocalMetadata exampleMeta
        { lastSyncTimestamp := some 9, lastSyncChecksum := none }).loc.meta =
          some R' ∧
      (∀ v, (some 9 : Option Nat) = some v → R'.lastSyncTimestamp = v) ∧
      ((some 9 : Option Nat) = none → R'.lastSyncTimestamp = 3) ∧
      (∀ c, (none : Option String) = some c → R'.lastSyncChecksum = c) ∧
      ((none : Option String) = none → R'.lastSyncChecksum = "old") :=
  updateLocalMetadata_merge exampleMeta
    { lastSyncTimestamp := 3, lastSyncChecksum := "old" }
    { lastSyncTimestamp := some 9, lastSyncChecksum := none } rfl

/-- Claim C1 (amended): once the provider's folder cache is initialized,
reading the remote blob and remote record as the `current.db` and
`metadata.json` files under the cached folder, sync decides in the fixed
order — no blob: push; no record: push; equal fingerprints: the
`bidirectional` no-op result with zero bytes and no state change; otherwise
push exactly when the local modification time strictly exceeds the record's
timestamp, and pull when it is less than or equal. -/
theorem sync_decision_order (s : EngineState) (fid : Nat)
    (hc : s.prov.rootFolderId = some fid) :
    (blobFile s fid = none → SyncEngine.sync s = SyncEngine.pushToCloud s) ∧
    (∀ f, blobFile s fid = some f → recordFile s fid = none →
      SyncEngine.sync s = SyncEngine.pushToCloud s) ∧
    (∀ f g m, blobFile s fid = some f → recordFile s fid = some g →
      decodeMetadata g.content = some m →
      DatabaseManager.getChecksum s = m.checksum →
      SyncEngine.sync s =
        (Except.ok
          { success := true, type := SyncType.bidirectional,
            timestamp := s.now,
            localChecksum := DatabaseManager.getChecksum s,
            cloudChecksum := m.checksum, bytesTransferred := 0,
            duration := 0, error := none }, s)) ∧
    (∀ f g m, blobFile s fid = some f → recordFile s fid = some g →
      decodeMetadata g.content = some m →
      DatabaseManager.getChecksum s ≠ m.checksum →
      m.lastSyncTimestamp < DatabaseManager.getModifiedTime s →
      SyncEngine.sync s = SyncEngine.pushToCloud s) ∧
    (∀ f g m, blobFile s fid = some f → recordFile s fid = some g →
      decodeMetadata g.content = some m →
      DatabaseManager.getChecksum s ≠ m.checksum →
      DatabaseManager.getModifiedTime s ≤ m.lastSyncTimestamp →
      SyncEngine.sync s = SyncEngine.pullFromCloud s) :=
  ⟨fun hb => sync_no_blob s fid hc hb,
   fun f hb hr => sync_no_record s fid f hc hb hr,
   fun f g m hb hr hd heq => sync_insync s fid f g m hc hb hr hd heq,
   fun f g m hb hr hd hne hm =>
     sync_local_newer s fid f g m hc hb hr hd hne hm,
   fun f g m hb hr hd hne hm =>
     sync_local_older s fid f g m hc hb hr hd hne hm⟩

set_option maxRecDepth 1000000 in
/-- Claim C1 witness: at a concrete cache-initialized divergent state whose
local modification time equals the record timestamp, sync performs a
pull. -/
theorem sync_decision_order_witness :
    SyncEngine.sync exampleTie = SyncEngine.pullFromCloud exampleTie :=
  (sync_decision_order exampleTie 1 rfl).2.2.2.2
    ⟨2, "current.db", some 1, false, false, [118, 50]⟩
    ⟨3, "metadata.json", some 1, false, false,
      encodeMetadata
        { dbName := "current", lastSyncTimestamp := 5,
          lastSyncType := SyncType.push, checksum := "c2", version := 1 }⟩
    { dbName := "current", lastSyncTimestamp := 5,
      lastSyncType := SyncType.push, checksum := "c2", version := 1 }
    (by decide) (by decide) (by decide) (by decide) (by decide)

set_option maxRecDepth 1000000 in
/-- Claim C1 counterexample: a state of the remote store holding the blob
and a matching record (under the db subfolder, with the folder cache naming
the root folder) on which the claim, as stated over blob existence in the
store, demands the `bidirectional` no-op — but sync performs a push. -/
theorem sync_decision_order_cex :
    (∃ f ∈ cacheSplitState.drive.files, f.name = "current.db" ∧
        f.trashed = false ∧ f.content = cacheSplitState.loc.dbFile) ∧
    (∃ g ∈ cacheSplitState.drive.files, g.name = "metadata.json" ∧
        g.trashed = false ∧ decodeMetadata g.content = some recV1) ∧
    recV1.checksum = DatabaseManager.getChecksum cacheSplitState ∧
    (SyncEngine.sync cacheSplitState).1 =
      Except.ok
        { success := true, type := SyncType.push, timestamp := 10,
          localChecksum := ChecksumUtil.calculateBufferChecksum [118, 49],
          cloudChecksum := ChecksumUtil.calculateBufferChecksum [118, 49],
          bytesTransferred := 2, duration := 0, error := none } ∧
    SyncType.push ≠ SyncType.bidirectional := by
  exact ⟨by decide, by decide, by decide, by rfl, by decide⟩

/-- Claim C2 (amended): with the folder cache initialized and the blob
present under the cached folder, a record there whose fingerprint differs
from the digest of the downloaded bytes makes pull fail with the error
message `Checksum mismatch - data corruption detected`, leaving the whole
state (in particular the local file and local record) unmodified; with no
record there, verification is skipped and pull succeeds. -/
theorem pull_integrity (s : EngineState) (fid : Nat) (f : DriveFile)
    (hc : s.prov.rootFolderId = some fid) (hb : blobFile s fid = some f) :
    (∀ g m, recordFile s fid = some g → decodeMetadata g.content = some m →
      m.checksum ≠ ChecksumUtil.calculateBufferChecksum f.content →
      SyncEngine.pullFromCloud s =
        (Except.error "Checksum mismatch - data corruption detected", s)) ∧
    (recordFile s fid = none →
      ∃ res s2, SyncEngine.pullFromCloud s = (Except.ok res, s2)) := by
  constructor
  · exact fun g m hr hd hm =>
      pullFromCloud_mismatch s fid f g m hc hb hr hd hm
  · intro hr
    refine ⟨_, _, pullFromCloud_ok s fid f hc hb ?_⟩
    intro g hg
    rw [hr] at hg
    cases hg

set_option maxRecDepth 1000000 in
/-- Claim C2 witness: the corruption branch at a concrete state. -/
theorem pull_integrity_witness :
    SyncEngine.pullFromCloud examplePullCorrupt =
      (Except.error "Checksum mismatch - data corruption detected",
       examplePullCorrupt) :=
  (pull_integrity examplePullCorrupt 1
      ⟨2, "current.db", some 1, false, false, [1]⟩ rfl (by decide)).1
    ⟨3, "metadata.json", some 1, false, false,
      encodeMetadata
        { dbName := "current", lastSyncTimestamp := 9,
          lastSyncType := SyncType.push, checksum := "bad", version := 1 }⟩
    { dbName := "current", lastSyncTimestamp := 9,
      lastSyncType := SyncType.push, checksum := "bad", version := 1 }
    (by decide) (by decide) (by decide)

set_option maxRecDepth 1000000 in
/-- Claim C2 counterexample: at a concrete corrupt state, the thrown message
is `Checksum mismatch - data corruption detected`, not the claimed
`checksum mismatch — data corruption detected`. -/
theorem pull_integrity_cex :
    (SyncEngine.pullFromCloud examplePullCorrupt).1 =
      Except.error "Checksum mismatch - data corruption detected" ∧
    (SyncEngine.pullFromCloud examplePullCorrupt).1 ≠
      Except.error "checksum mismatch — data corruption detected" := by
  have h1 : (SyncEngine.pullFromCloud examplePullCorrupt).1 =
      Except.error "Checksum mismatch - data corruption detected" := by rfl
  refine ⟨h1, fun h => ?_⟩
  rw [h1] at h
  simp at h

/-- Claim C3: a successful push (over a well-formed Drive tree) returns the
`push` result with equal checksums and the buffer's length, merge-updates
the local record with timestamp now and the local fingerprint, leaves a
non-trashed `current.db` blob holding exactly the local bytes, and persists
the serialized remote record (direction `push`, local fingerprint,
timestamp now, version 1) as a non-trashed `metadata.json` blob. -/
theorem push_effects (s : EngineState) (hwf : DriveWf s.drive) :
    (SyncEngine.pushToCloud s).1 =
      Except.ok
        { success := true, type := SyncType.push, timestamp := s.now,
          localChecksum := ChecksumUtil.calculateBufferChecksum s.loc.dbFile,
          cloudChecksum := ChecksumUtil.calculateBufferChecksum s.loc.dbFile,
          bytesTransferred := s.loc.dbFile.length, duration := 0,
          error := none } ∧
    (SyncEngine.pushToCloud s).2.loc.dbFile = s.loc.dbFile ∧
    (SyncEngine.pushToCloud s).2.loc.dbMtime = s.loc.dbMtime ∧
    (SyncEngine.pushToCloud s).2.loc.meta =
      some { lastSyncTimestamp := s.now,
             lastSyncChecksum :=
               ChecksumUtil.calculateBufferChecksum s.loc.dbFile } ∧
    (∃ f ∈ (SyncEngine.pushToCloud s).2.drive.files,
        f.name = "current.db" ∧ f.trashed = false ∧
        f.content = s.loc.dbFile) ∧
    (∃ g ∈ (SyncEngine.pushToCloud s).2.drive.files,
        g.name = "metadata.json" ∧ g.trashed = false ∧
        g.content = encodeMetadata
          { dbName := "current", lastSyncTimestamp := s.now,
            lastSyncType := SyncType.push,
            checksum := ChecksumUtil.calculateBufferChecksum s.loc.dbFile,
            version := 1 }) := by
  obtain ⟨hloc1, hnow1, ⟨f1, hf1m, hf1n, hf1t, hf1c⟩, hwf1, -⟩ :=
    uploadFile_spec s "current.db" s.loc.dbFile
  obtain ⟨hloc2, hnow2, ⟨g2, hg2m, hg2n, hg2t, hg2c⟩, -, hpres2⟩ :=
    uploadFile_spec (GoogleDriveProvider.uploadFile s "current.db" s.loc.dbFile)
      "metadata.json"
      (encodeMetadata
        { dbName := "current", lastSyncTimestamp := s.now,
          lastSyncType := SyncType.push,
          checksum := ChecksumUtil.calculateBufferChecksum s.loc.dbFile,
          version := 1 })
  have hstate : (SyncEngine.pushToCloud s).2 =
      DatabaseManager.updateLocalMetadata
        (GoogleDriveProvider.uploadFile
          (GoogleDriveProvider.uploadFile s "current.db" s.loc.dbFile)
          "metadata.json"
          (encodeMetadata
            { dbName := "current", lastSyncTimestamp := s.now,
              lastSyncType := SyncType.push,
              checksum := ChecksumUtil.calculateBufferChecksum s.loc.dbFile,
              version := 1 }))
        { lastSyncTimestamp := some s.now,
          lastSyncChecksum :=
            some (ChecksumUtil.calculateBufferChecksum s.loc.dbFile) } := rfl
  refine ⟨rfl, ?_, ?_, ?_, ?_, ?_⟩
  · rw [hstate]
    simp [DatabaseManager.updateLocalMetadata, hloc2, hloc1]
  · rw [hstate]
    simp [DatabaseManager.updateLocalMetadata, hloc2, hloc1]
  · rw [hstate]
    simp [DatabaseManager.updateLocalMetadata, DatabaseManager.getLocalMetadata,
          DatabaseManager.mergeMetadata, hloc2, hloc1]
  · refine ⟨f1, ?_, hf1n, hf1t, hf1c⟩
    rw [hstate]
    show f1 ∈ (GoogleDriveProvider.uploadFile _ "metadata.json" _).drive.files
    refine hpres2 (hwf1 hwf) f1 hf1m ?_
    rw [hf1n]
    decide
  · refine ⟨g2, ?_, hg2n, hg2t, hg2c⟩
    rw [hstate]
    exact hg2m

/-- Claim C3 witness: the push conclusions at the concrete pristine state
(whose empty Drive tree is well-formed). -/
theorem push_effects_witness :
    (SyncEngine.pushToCloud cleanStart).1 =
      Except.ok
        { success := true, type := SyncType.push, timestamp := cleanStart.now,
          localChecksum :=
            ChecksumUtil.calculateBufferChecksum cleanStart.loc.dbFile,
          cloudChecksum :=
            ChecksumUtil.calculateBufferChecksum cleanStart.loc.dbFile,
          bytesTransferred := cleanStart.loc.dbFile.length, duration := 0,
          error := none } ∧
    (SyncEngine.pushToCloud cleanStart).2.loc.dbFile = cleanStart.loc.dbFile ∧
    (SyncEngine.pushToCloud cleanStart).2.loc.dbMtime =
      cleanStart.loc.dbMtime ∧
    (SyncEngine.pushToCloud cleanStart).2.loc.meta =
      some { lastSyncTimestamp := cleanStart.now,
             lastSyncChecksum :=
               ChecksumUtil.calculateBufferChecksum cleanStart.loc.dbFile } ∧
    (∃ f ∈ (SyncEngine.pushToCloud cleanStart).2.drive.files,
        f.name = "current.db" ∧ f.trashed = false ∧
        f.content = cleanStart.loc.dbFile) ∧
    (∃ g ∈ (SyncEngine.pushToCloud cleanStart).2.drive.files,
        g.name = "metadata.json" ∧ g.trashed = false ∧
        g.content = encodeMetadata
          { dbName := "current", lastSyncTimestamp := cleanStart.now,
            lastSyncType := SyncType.push,
            checksum :=
              ChecksumUtil.calculateBufferChecksum cleanStart.loc.dbFile,
            version := 1 }) :=
  push_effects cleanStart (by constructor <;> simp [cleanStart, DriveWf])

set_option maxRecDepth 1000000 in
/-- Claim C4 (bug trace): from the pristine first-use state, push succeeds —
but it files `current.db` under the db subfolder while every later probe
targets the root folder, so the immediately following pull throws
`No cloud version found` instead of restoring the content. -/
theorem push_pull_roundtrip_bug :
    (SyncEngine.pushToCloud cleanStart).1 =
      Except.ok
        { success := true, type := SyncType.push, timestamp := 10,
          localChecksum := ChecksumUtil.calculateBufferChecksum [118, 49],
          cloudChecksum := ChecksumUtil.calculateBufferChecksum [118, 49],
          bytesTransferred := 2, duration := 0, error := none } ∧
    (∃ f ∈ (SyncEngine.pushToCloud cleanStart).2.drive.files,
        f.name = "current.db" ∧ f.trashed = false ∧ f.content = [118, 49]) ∧
    (SyncEngine.pullFromCloud (SyncEngine.pushToCloud cleanStart).2).1 =
      Except.error "No cloud version found" := by
  exact ⟨by rfl, by decide, by rfl⟩

set_option maxRecDepth 1000000 in
/-- Claim C5 (bug trace): on the remote layout a pristine push leaves
behind, a first sync reports the in-sync `bidirectional` no-op, yet an
immediately repeated sync — with no intervening modification — performs a
push instead of the claimed no-op. -/
theorem sync_twice_bug :
    (SyncEngine.sync day2State).1 =
      Except.ok
        { success := true, type := SyncType.bidirectional, timestamp := 10,
          localChecksum := ChecksumUtil.calculateFileChecksum [118, 49],
          cloudChecksum := ChecksumUtil.calculateBufferChecksum [118, 49],
          bytesTransferred := 0, duration := 0, error := none } ∧
    (SyncEngine.sync (SyncEngine.sync day2State).2).1 =
      Except.ok
        { success := true, type := SyncType.push, timestamp := 10,
          localChecksum := ChecksumUtil.calculateBufferChecksum [118, 49],
          cloudChecksum := ChecksumUtil.calculateBufferChecksum [118, 49],
          bytesTransferred := 2, duration := 0, error := none } ∧
    SyncType.push ≠ SyncType.bidirectional := by
  exact ⟨by rfl, by rfl, by decide⟩

/-- Claim C6 (amended): when no non-trashed `current.db` file exists
anywhere in the store, pull fails with the error message
`No cloud version found`, performs no download, no local replacement and no
record update — the local side is untouched and the only remote effect is
the folder provisioning of the existence probe. -/
theorem pull_missing_blob (s : EngineState)
    (hno : ∀ f ∈ s.drive.files, f.name = "current.db" → f.trashed = true) :
    (SyncEngine.pullFromCloud s).1 = Except.error "No cloud version found" ∧
    (SyncEngine.pullFromCloud s).2.loc = s.loc ∧
    ∃ extra, (SyncEngine.pullFromCloud s).2.drive.files =
        s.drive.files ++ extra ∧ ∀ f ∈ extra, f.isFolder = true := by
  obtain ⟨extra, hfiles, hfold, hloc, hnow, hsome, -⟩ :=
    ensureRootFolder_spec s
  have hnone : (GoogleDriveProvider.ensureRootFolder s).2.drive.files.find?
      (fun f => f.name == "current.db" &&
        f.parent == some (GoogleDriveProvider.ensureRootFolder s).1 &&
        !f.trashed) = none := by
    apply List.find?_eq_none.mpr
    intro x hx hpred
    rw [hfiles] at hx
    simp only [Bool.and_eq_true, beq_iff_eq, Bool.not_eq_eq_eq_not,
               Bool.not_true] at hpred
    obtain ⟨⟨hn, -⟩, ht⟩ := hpred
    rcases List.mem_append.mp hx with hx | hx
    · have := hno x hx hn
      rw [this] at ht
      cases ht
    · rcases (hfold x hx).2 with hx2 | hx2 <;> rw [hx2] at hn <;>
        simp [GoogleDriveProvider.dbName] at hn
  have hfe : GoogleDriveProvider.fileExists s "current.db" =
      (false, (GoogleDriveProvider.ensureRootFolder s).2) := by
    simp [GoogleDriveProvider.fileExists, GoogleDriveProvider.findFile, hnone]
  refine ⟨?_, ?_, extra, ?_, fun f hf => (hfold f hf).1⟩
  · simp [SyncEngine.pullFromCloud, hfe]
  · simp [SyncEngine.pullFromCloud, hfe, hloc]
  · simp [SyncEngine.pullFromCloud, hfe, hfiles]

/-- Claim C6 witness: the amended statement at the concrete pristine
state. -/
theorem pull_missing_blob_witness :
    (SyncEngine.pullFromCloud cleanStart).1 =
      Except.error "No cloud version found" ∧
    (SyncEngine.pullFromCloud cleanStart).2.loc = cleanStart.loc ∧
    ∃ extra, (SyncEngine.pullFromCloud cleanStart).2.drive.files =
        cleanStart.drive.files ++ extra ∧ ∀ f ∈ extra, f.isFolder = true :=
  pull_missing_blob cleanStart (by simp [cleanStart])

/-- Claim C6 counterexample: at a concrete blob-less state the thrown
message is `No cloud version found`, not the claimed
`no remote version found`. -/
theorem pull_missing_blob_cex :
    (SyncEngine.pullFromCloud cleanStart).1 =
      Except.error "No cloud version found" ∧
    (SyncEngine.pullFromCloud cleanStart).1 ≠
      Except.error "no remote version found" := by
  have h1 : (SyncEngine.pullFromCloud cleanStart).1 =
      Except.error "No cloud version found" := by rfl
  refine ⟨h1, fun h => ?_⟩
  rw [h1] at h
  simp at h

/-- Any result push returns has success true and no error set. -/
lemma push_ok_inv (s : EngineState) (r : SyncResult) (s' : EngineState)
    (h : SyncEngine.pushToCloud s = (Except.ok r, s')) :
    r.success = true ∧ r.error = none := by
  have h2 := congrArg Prod.fst h
  have h3 : (SyncEngine.pushToCloud s).1 =
      Except.ok
        { success := true, type := SyncType.push, timestamp := s.now,
          localChecksum := ChecksumUtil.calculateBufferChecksum s.loc.dbFile,
          cloudChecksum := ChecksumUtil.calculateBufferChecksum s.loc.dbFile,
          bytesTransferred := s.loc.dbFile.length, duration := 0,
          error := none } := rfl
  rw [h3] at h2
  injection h2 with h4
  rw [← h4]
  exact ⟨rfl, rfl⟩

/-- Any result pull returns has success true and no error set. -/
lemma pull_ok_inv (s : EngineState) (r : SyncResult) (s' : EngineState)
    (h : SyncEngine.pullFromCloud s = (Except.ok r, s')) :
    r.success = true ∧ r.error = none := by
  simp only [SyncEngine.pullFromCloud] at h
  split at h
  · simp at h
  · split at h
    · simp at h
    · split at h
      · simp at h
      · split at h
        · simp at h
        · simp only [Prod.mk.injEq, Except.ok.injEq] at h
          obtain ⟨h1, -⟩ := h
          rw [← h1]
          exact ⟨rfl, rfl⟩

/-- Any result sync returns has success true and no error set. -/
lemma sync_ok_inv (s : EngineState) (r : SyncResult) (s' : EngineState)
    (h : SyncEngine.sync s = (Except.ok r, s')) :
    r.success = true ∧ r.error = none := by
  simp only [SyncEngine.sync] at h
  split at h
  · exact push_ok_inv _ r _ h
  · split at h
    · simp at h
    · exact push_ok_inv _ r _ h
    · split at h
      · simp only [Prod.mk.injEq, Except.ok.injEq] at h
        obtain ⟨h1, -⟩ := h
        rw [← h1]
        exact ⟨rfl, rfl⟩
      · split at h
        · exact push_ok_inv _ r _ h
        · exact pull_ok_inv _ r _ h

/-- Claim C9: every result actually returned by push, pull or sync has
success true and its error field unset; failures are signalled only through
the error channel, never through a returned result. -/
theorem results_success_no_error (s : EngineState) (r : SyncResult)
    (s' : EngineState) :
    (SyncEngine.pushToCloud s = (Except.ok r, s') →
      r.success = true ∧ r.error = none) ∧
    (SyncEngine.pullFromCloud s = (Except.ok r, s') →
      r.success = true ∧ r.error = none) ∧
    (SyncEngine.sync s = (Except.ok r, s') →
      r.success = true ∧ r.error = none) :=
  ⟨push_ok_inv s r s', pull_ok_inv s r s', sync_ok_inv s r s'⟩

/-- Claim C9 witness: the push conjunct at a concrete state. -/
theorem results_success_no_error_witness :
    ({ success := true, type := SyncType.push, timestamp := 10,
       localChecksum := ChecksumUtil.calculateBufferChecksum [118, 49],
       cloudChecksum := ChecksumUtil.calculateBufferChecksum [118, 49],
       bytesTransferred := 2, duration := 0, error := none } :
        SyncResult).success = true ∧
    ({ success := true, type := SyncType.push, timestamp := 10,
       localChecksum := ChecksumUtil.calculateBufferChecksum [118, 49],
       cloudChecksum := ChecksumUtil.calculateBufferChecksum [118, 49],
       bytesTransferred := 2, duration := 0, error := none } :
        SyncResult).error = none :=
  (results_success_no_error cleanStart _ _).1 (by rfl)

/-- Claim C10 (amended): pull never modifies the remote blob, the remote
record, or any existing remote file — every Drive file present before is
present unchanged after, and the only possible remote effect is the folder
provisioning performed by the existence probe (`fileExists` calls
`ensureRootFolder`, which creates the root/db folders when missing); with
the folder cache initialized, the remote store is left entirely
unchanged. -/
theorem pull_preserves_remote (s : EngineState) :
    (∃ extra, (SyncEngine.pullFromCloud s).2.drive.files =
        s.drive.files ++ extra ∧ ∀ f ∈ extra, f.isFolder = true) ∧
    (∀ fid, s.prov.rootFolderId = some fid →
      (SyncEngine.pullFromCloud s).2.drive = s.drive) := by
  constructor
  · obtain ⟨extra, hfiles, hfold, -⟩ := ensureRootFolder_spec s
    exact ⟨extra, by rw [pullFromCloud_drive]; exact hfiles,
      fun f hf => (hfold f hf).1⟩
  · intro fid hc
    rw [pullFromCloud_drive, ensureRootFolder_cached s fid hc]

/-- Claim C10 witness: the cache-initialized conjunct at a concrete
state. -/
theorem pull_preserves_remote_witness :
    (SyncEngine.pullFromCloud exampleTie).2.drive = exampleTie.drive :=
  (pull_preserves_remote exampleTie).2 1 rfl

/-- Claim C10 counterexample: at the pristine state, pull is not read-only
on the remote store — its existence probe provisions the root and db
folders, changing the Drive tree even though the pull itself fails. -/
theorem pull_preserves_remote_cex :
    (SyncEngine.pullFromCloud cleanStart).2.drive ≠ cleanStart.drive := by
  decide
